import Mathlib

/-!
A shallow embedding of the container-launcher orchestration implemented in
`launch-claude-container-standalone.py` (class `ClaudeContainerLauncher`):
worktree acquisition, image-build decision, container run, change
reconciliation and teardown.

External commands are never executed here.  Instead an `Env` record fixes the
observable outcome of every external query and the success of every fallible
external command (`git`, `podman`, filesystem), and each Python method becomes
a pure Lean function from `Env` (plus the method's arguments and the relevant
instance state) to the list of observable actions (`Event`s) it performs,
together with its result.  `sys.exit(n)` and an uncaught
`subprocess.CalledProcessError` (from a `check=True` call) are both modelled
by `Outcome`; either makes the interpreter exit with status `n` resp. 1.
-/

namespace Launcher

/-- Observable actions performed by the launcher: an external command
invocation (`subprocess.run` argv), a configuration artifact written into or
deleted from the build context (`script_dir`), and a warning surfaced to the
operator. -/
inductive Event where
  | cmd (argv : List String)
  | writeFile (name : String)
  | deleteFile (name : String)
  | warn (msg : String)
  deriving DecidableEq

/-- The observable outside world for one run: the result of every external
query and the success of every fallible external command.  String fields
carry the ambient values the script reads (`os.getuid()`, `$USER`, branch
name, command output, ...). -/
structure Env where
  /-- `git rev-parse --git-dir` succeeds (line 215, `is_git_repo`). -/
  isGitRepo : Bool
  /-- `git worktree add -b claude_wt wt_temp/` succeeds (line 241). -/
  worktreeAddOk : Bool
  /-- `args.worktree_path.exists()` (line 537). -/
  worktreePathExists : Bool
  /-- `~/.claude/.credentials.json` exists (line 285). -/
  credentialsExist : Bool
  /-- `~/.claude.json` exists (line 294; the extracted template file always
  exists, having been written in `__init__`). -/
  userConfigExists : Bool
  /-- reading/merging/writing the config raises no exception (lines 295-327). -/
  configParseOk : Bool
  /-- `podman image exists` returns 0 (line 338). -/
  imageExists : Bool
  /-- `podman image inspect ... --format ...` returns 0 (line 347). -/
  inspectOk : Bool
  /-- `self.dockerfile.exists()` — the temp-dir dockerfile written in
  `__init__`, consulted at lines 526 and 354. -/
  dockerfileExists : Bool
  /-- `podman build` succeeds (line 378, `check=True`). -/
  buildOk : Bool
  /-- `podman container exists claude-code-dev` returns 0 (line 393). -/
  containerExists : Bool
  /-- `self.worktree_path.exists()` at post-processing time (line 447). -/
  worktreeDirExists : Bool
  /-- `git diff --quiet` returns nonzero (line 460). -/
  hasUnstagedChanges : Bool
  /-- `git diff --cached --quiet` returns nonzero (line 465). -/
  hasStagedChanges : Bool
  /-- the `strip()`-ped stdout of `git ls-files --others --exclude-standard`
  (lines 470-475): the launcher only ever consults its stripped form. -/
  untrackedOutput : String
  /-- `git add -A` succeeds (line 482, `check=True`). -/
  addOk : Bool
  /-- `git commit -m ...` succeeds (line 486, `check=True`). -/
  commitOk : Bool
  /-- `git branch --show-current` succeeds (line 489, `check=True`). -/
  branchOk : Bool
  /-- stripped stdout of `git branch --show-current` (line 495). -/
  currentBranch : String
  /-- `git push origin <branch>` succeeds (line 499, `check=True`). -/
  pushOk : Bool
  /-- `git push --set-upstream origin <branch>` succeeds (line 503). -/
  pushUpstreamOk : Bool
  /-- `str(self.worktree_path)` occurs in `git worktree list --porcelain`
  output (line 269). -/
  worktreeInList : Bool
  /-- `time.strftime` result used in the commit message (line 485). -/
  timestamp : String
  /-- `os.getuid()` rendered as a string (line 160). -/
  uid : String
  /-- `os.getgid()` rendered as a string (line 161). -/
  gid : String
  /-- `os.environ.get('USER', 'user')` (line 162). -/
  user_name : String
  /-- `self.script_dir` (line 143). -/
  script_dir : String
  /-- `str(self.dockerfile)` (line 146). -/
  dockerfile_path : String
  deriving DecidableEq

/-- Parsed command-line arguments (`parse_args`, lines 170-206). -/
structure Args where
  message : Option String
  no_cache : Bool
  permission_mode : Option String
  worktree_branch : Option String
  keep_worktree : Bool
  no_worktree : Bool
  worktree_path : Option String
  deriving DecidableEq

/-- How the process ends: normal completion, `sys.exit n`, or an uncaught
exception (which makes the interpreter exit with status 1). -/
inductive Outcome where
  | ok
  | exit (n : Nat)
  | exn
  deriving DecidableEq

/-- The process exit status produced by an `Outcome`. -/
def Outcome.code : Outcome → Nat
  | .ok => 0
  | .exit n => n
  | .exn => 1

/-- `self.image_name` (line 156). -/
def image_name : String := "claude-code-ubuntu"

/-- `self.container_name` (line 157). -/
def container_name : String := "claude-code-dev"

/-- The instance state relevant to mounting and teardown:
`mount_path`, `self.worktree_path`, `self.worktree_created`,
`self.cleanup_worktree`. -/
structure RunState where
  mount_path : String
  worktree_path : Option String
  worktree_created : Bool
  cleanup_worktree : Bool
  deriving DecidableEq

/-- The exact argv run by `create_worktree` (line 241-245). -/
def worktree_add_cmd : List String :=
  ["git", "worktree", "add", "-b", "claude_wt", "wt_temp/"]

/-- `create_worktree` (lines 227-254).  Returns the events performed and
either `.error 1` (the `sys.exit(1)` when not in a git repository) or
`.ok (path, worktree_created)`: on success the method returns
`cwd / "claude_wt"` having set `self.worktree_created = True`; on failure of
the `git worktree add` call it warns and returns `cwd` with
`worktree_created` still `False`.  Note that the argv it runs is the fixed
`worktree_add_cmd`, which never mentions `branch_or_commit`. -/
def create_worktree (env : Env) (cwd : String) (branch_or_commit : String) :
    List Event × Except Nat (String × Bool) :=
  let _ := branch_or_commit
  let e0 := [Event.cmd ["git", "rev-parse", "--git-dir"]]
  if env.isGitRepo then
    let e1 := e0 ++ [Event.cmd worktree_add_cmd]
    if env.worktreeAddOk then
      (e1, .ok (cwd ++ "/claude_wt", true))
    else
      (e1 ++ [Event.warn "Failed to create worktree. Using current directory instead."],
       .ok (cwd, false))
  else
    (e0 ++ [Event.warn "Error: Not in a git repository. Worktree requires a git repository."],
     .error 1)

/-- `cleanup_worktree_if_needed` (lines 256-275): only when
`self.worktree_path` is set, cleanup is enabled and the worktree was created
by this run does it list worktrees and, when the path occurs in the listing,
remove it.  All failures are swallowed. -/
def cleanup_worktree_if_needed (env : Env) (worktree_path : Option String)
    (cleanup_worktree worktree_created : Bool) : List Event :=
  match worktree_path with
  | none => []
  | some p =>
    if cleanup_worktree && worktree_created then
      [Event.cmd ["git", "worktree", "list", "--porcelain"]] ++
      (if env.worktreeInList then
        [Event.cmd ["git", "worktree", "remove", p, "--force"]]
      else [])
    else []

/-- `prepare_claude_config` (lines 277-330): copies the credentials file into
the build context and generates `.claude.json` there; missing sources or a
processing error cause `sys.exit(1)` (modelled as `.error 1`). -/
def prepare_claude_config (env : Env) : List Event × Except Nat Unit :=
  if env.credentialsExist then
    let e0 := [Event.writeFile ".credentials.json"]
    if env.userConfigExists then
      if env.configParseOk then
        (e0 ++ [Event.writeFile ".claude.json"], .ok ())
      else
        (e0 ++ [Event.warn "Error processing configuration"], .error 1)
    else
      (e0 ++ [Event.warn "Warning: ~/.claude.json or template file not found"], .error 1)
  else
    ([Event.warn "Warning: ~/.claude/.credentials.json not found"], .error 1)

/-- The decision of `should_build_image` (lines 332-358): build if `no_cache`;
else build if no image with the tag exists; else, when the inspect query
returns 0, build exactly when the dockerfile exists (the code's comment:
"For simplicity, always rebuild if Dockerfile exists"); when the inspect
query fails, do not build. -/
def should_build_image (env : Env) (no_cache : Bool) : Bool :=
  if no_cache then true
  else if !env.imageExists then true
  else if env.inspectOk then env.dockerfileExists
  else false

/-- The external queries `should_build_image` performs on the way to its
decision (lines 338-351). -/
def should_build_events (env : Env) (no_cache : Bool) : List Event :=
  if no_cache then []
  else
    [Event.cmd ["podman", "image", "exists", image_name]] ++
    (if !env.imageExists then []
     else [Event.cmd ["podman", "image", "inspect", image_name,
                      "--format", "\x7b\x7b.Created\x7d\x7d"]])

/-- The argv of `build_image` (lines 360-378). -/
def build_cmd (env : Env) (no_cache : Bool) : List String :=
  ["podman", "build", "-f", env.dockerfile_path,
   "--build-arg", "USER_ID=" ++ env.uid,
   "--build-arg", "GROUP_ID=" ++ env.gid,
   "--build-arg", "USER_NAME=" ++ env.user_name,
   "-t", image_name] ++
  (if no_cache then ["--no-cache"] else []) ++
  [env.script_dir]

/-- The image-decision-plus-build step of `run` (lines 553-554): the events
performed and whether the step completed without an exception (the build is
`check=True`, so `podman build` failing raises). -/
def build_phase (env : Env) (no_cache : Bool) : List Event × Bool :=
  let e := should_build_events env no_cache
  if should_build_image env no_cache then
    (e ++ [Event.cmd (build_cmd env no_cache)], env.buildOk)
  else
    (e, true)

/-- `cleanup_temp_files` (lines 380-389).  When control reaches this call in
`run` both artifacts were just written by `prepare_claude_config`, so the
`exists()` guards are satisfied and both files are unlinked. -/
def cleanup_temp_files : List Event :=
  [Event.deleteFile ".credentials.json", Event.deleteFile ".claude.json"]

/-- `stop_existing_container` (lines 391-406): probes for the named
container; when present, stops and removes it.  No call uses `check=True`,
so this never raises. -/
def stop_existing_container (env : Env) : List Event :=
  [Event.cmd ["podman", "container", "exists", container_name]] ++
  (if env.containerExists then
    [Event.warn "Stopping existing container...",
     Event.cmd ["podman", "stop", container_name],
     Event.cmd ["podman", "rm", container_name]]
  else [])

/-- The entry command built when a one-shot message is supplied
(lines 432-438).  Line 434's `if permission_mode:` is Python truthiness: an
empty-string mode is falsy, so it keeps `--dangerously-skip-permissions`
like an absent one. -/
def claude_cmd (message : String) (permission_mode : Option String) : String :=
  let c := "claude"
  let c :=
    match permission_mode with
    | some m =>
      if m != "" then c ++ " --permission-mode " ++ m
      else c ++ " --dangerously-skip-permissions"
    | none => c ++ " --dangerously-skip-permissions"
  c ++ " -p \"" ++ message ++ "\" --output-format stream-json --verbose"

/-- The fixed part of the `podman run` argv (lines 422-430). -/
def base_run_args (env : Env) (mount_path : String) : List String :=
  ["podman", "run", "-it",
   "--name", container_name,
   "--hostname", "claude-dev",
   "--user", env.uid ++ ":" ++ env.gid,
   "--volume", mount_path ++ ":/home/" ++ env.user_name ++ "/dev:Z",
   "--userns=keep-id",
   image_name]

/-- The full `podman run` argv, with the one-shot entry command appended when
a message is supplied (lines 432-441).  Line 432's `if message:` is Python
truthiness: an empty-string message is falsy and starts a plain interactive
shell, like an absent one. -/
def run_container_args (env : Env) (mount_path : String)
    (message permission_mode : Option String) : List String :=
  base_run_args env mount_path ++
  (match message with
   | some msg =>
     if msg != "" then ["bash", "-c", claude_cmd msg permission_mode] else []
   | none => [])

/-- `run_container` (lines 408-443): one `podman run` invocation, no
`check=True`, so it never raises. -/
def run_container (env : Env) (mount_path : String)
    (message permission_mode : Option String) : List Event :=
  [Event.cmd (run_container_args env mount_path message permission_mode)]

/-- The commit message of `handle_worktree_post_processing` (line 485). -/
def commit_msg (timestamp : String) : String :=
  "chore: claude code container changes " ++ timestamp

/-- `handle_worktree_post_processing` (lines 445-511): skipped unless the
worktree was created, is recorded, and its path exists; otherwise detect
changes (unstaged diff, staged diff, untracked listing), and when present
stage, commit, query the branch and push with one upstream-setting retry;
push failures end in a warning only.  Returns the events performed and
whether the method completed without an exception (`git add`, `git commit`
and the branch query are `check=True`; the pushes are wrapped in
try/except). -/
def handle_worktree_post_processing (env : Env) (worktree_created : Bool)
    (worktree_path : Option String) : List Event × Bool :=
  if worktree_created && worktree_path.isSome && env.worktreeDirExists then
    let eD := [Event.cmd ["git", "diff", "--quiet"],
               Event.cmd ["git", "diff", "--cached", "--quiet"],
               Event.cmd ["git", "ls-files", "--others", "--exclude-standard"]]
    let has_changes :=
      env.hasUnstagedChanges || env.hasStagedChanges ||
        (env.untrackedOutput != "")
    if has_changes then
      let eA := eD ++ [Event.cmd ["git", "add", "-A"]]
      if !env.addOk then (eA, false)
      else
        let eC := eA ++ [Event.cmd ["git", "commit", "-m", commit_msg env.timestamp]]
        if !env.commitOk then (eC, false)
        else
          let eB := eC ++ [Event.cmd ["git", "branch", "--show-current"]]
          if !env.branchOk then (eB, false)
          else
            let br := env.currentBranch
            let eP := eB ++ [Event.cmd ["git", "push", "origin", br]]
            if env.pushOk then (eP, true)
            else
              let eU := eP ++ [Event.cmd ["git", "push", "--set-upstream", "origin", br]]
              if env.pushUpstreamOk then (eU, true)
              else (eU ++ [Event.warn "Warning: Failed to push changes to remote"], true)
    else (eD, true)
  else ([], true)

/-- The "or" default of line 543: `args.worktree_branch or "HEAD"` (an empty
string is falsy in Python). -/
def branch_arg (worktree_branch : Option String) : String :=
  match worktree_branch with
  | some b => if b = "" then "HEAD" else b
  | none => "HEAD"

/-- The mount-path setup of `run` (lines 534-546), executed before the
`try` block.  `cleanup1` is the value of `self.cleanup_worktree` after the
`keep_worktree` check (line 531-532).  Returns `.inl (events, code)` when the
phase calls `sys.exit code` (not-a-repo, line 234 — note this happens outside
the `try`, so no teardown runs), else `.inr (events, state)`. -/
def checkout_phase (env : Env) (args : Args) (cwd : String) (cleanup1 : Bool) :
    (List Event × Nat) ⊕ (List Event × RunState) :=
  if args.no_worktree then
    .inr ([], ⟨cwd, none, false, cleanup1⟩)
  else if args.worktree_path.isSome && env.worktreePathExists then
    let p := args.worktree_path.getD cwd
    .inr ([], ⟨p, some p, false, false⟩)
  else
    match create_worktree env cwd (branch_arg args.worktree_branch) with
    | (e, .error n) => .inl (e, n)
    | (e, .ok (wt, created)) => .inr (e, ⟨wt, some wt, created, cleanup1⟩)

/-- The body of the `try` block of `run` (lines 548-568): configuration
preparation, conditional image build, temp-file cleanup, stale-container
stop, container run, and worktree post-processing.  Returns the events
performed and the outcome at the moment the `finally` is entered. -/
def try_phases (env : Env) (args : Args) (st : RunState) : List Event × Outcome :=
  match prepare_claude_config env with
  | (e1, .error n) => (e1, .exit n)
  | (e1, .ok _) =>
    let b := build_phase env args.no_cache
    if !b.2 then (e1 ++ b.1, .exn)
    else
      let e4 := e1 ++ b.1 ++ cleanup_temp_files ++ stop_existing_container env ++
        run_container env st.mount_path args.message args.permission_mode
      let p := handle_worktree_post_processing env st.worktree_created st.worktree_path
      (e4 ++ p.1, if p.2 then .ok else .exn)

/-- The observable result of a whole run. -/
structure RunResult where
  events : List Event
  outcome : Outcome
  mount_path : String
  worktree_path : Option String
  worktree_created : Bool
  cleanup_worktree : Bool
  deriving DecidableEq

/-- `run` (lines 519-572): dockerfile presence check (a failure exits before
the `try`), `keep_worktree` handling, checkout phase (also before the `try`),
then the `try` body with `cleanup_worktree_if_needed` as its `finally` —
the teardown events are appended no matter how the `try` body ended. -/
def run (env : Env) (args : Args) (cwd : String) : RunResult :=
  if !env.dockerfileExists then
    ⟨[Event.warn "Warning: dockerfile not found in script directory"],
     .exit 1, cwd, none, false, true⟩
  else
    let cleanup1 := !args.keep_worktree
    match checkout_phase env args cwd cleanup1 with
    | .inl (e, n) => ⟨e, .exit n, cwd, none, false, cleanup1⟩
    | .inr (e, st) =>
      let t := try_phases env args st
      let td := cleanup_worktree_if_needed env st.worktree_path
        st.cleanup_worktree st.worktree_created
      ⟨e ++ t.1 ++ td, t.2, st.mount_path, st.worktree_path,
       st.worktree_created, st.cleanup_worktree⟩

/-! Trace observers used to state the claims. -/

/-- Is this event an external `git` invocation? -/
def isGitInvocation : Event → Bool
  | .cmd (a :: _) => a == "git"
  | _ => false

/-- Does the trace invoke `git` at all? -/
def touchesGit (l : List Event) : Bool := l.any isGitInvocation

/-- Is this event a `git <sub> ...` invocation? -/
def isGitCmd (sub : String) : Event → Bool
  | .cmd (a :: c :: _) => a == "git" && c == sub
  | _ => false

/-- Does the trace invoke `git <sub>`? -/
def invokesGit (sub : String) (l : List Event) : Bool := l.any (isGitCmd sub)

/-- Is this event a `git worktree remove` invocation? -/
def isWorktreeRemove : Event → Bool
  | .cmd (a :: b :: c :: _) => a == "git" && b == "worktree" && c == "remove"
  | _ => false

/-- Does the trace remove a worktree? -/
def removesWorktree (l : List Event) : Bool := l.any isWorktreeRemove

/-- Is this event the `podman run` invocation? -/
def isPodmanRun : Event → Bool
  | .cmd (a :: b :: _) => a == "podman" && b == "run"
  | _ => false

/-- Does the trace start a container? -/
def startsContainer (l : List Event) : Bool := l.any isPodmanRun

/-- Is this event the `podman build` invocation? -/
def isPodmanBuild : Event → Bool
  | .cmd (a :: b :: _) => a == "podman" && b == "build"
  | _ => false

/-- Does the trace build the image? -/
def buildsImage (l : List Event) : Bool := l.any isPodmanBuild

/-- Is this event a deletion of a build-context artifact? -/
def isDeleteFile : Event → Bool
  | .deleteFile _ => true
  | _ => false

/-- Does the trace delete the configuration artifacts? -/
def deletesArtifacts (l : List Event) : Bool := l.any isDeleteFile

/-- Is this event the plain `git push origin <branch>` invocation? -/
def isPlainPush : Event → Bool
  | .cmd (a :: b :: c :: _) => a == "git" && b == "push" && c == "origin"
  | _ => false

/-- Is this event the upstream-setting push invocation? -/
def isUpstreamPush : Event → Bool
  | .cmd (a :: b :: c :: _) => a == "git" && b == "push" && c == "--set-upstream"
  | _ => false

/-- Does the trace surface the push-failure warning? -/
def warnsPushFailure (l : List Event) : Bool :=
  l.any (· == Event.warn "Warning: Failed to push changes to remote")

/-! Helper lemmas about the phases, shared by the claim theorems. -/

/-- An event that is not a `git` invocation satisfies none of the
`git`-specific observers. -/
theorem not_git_event (sub : String) (e : Event) (h : isGitInvocation e = false) :
    isGitCmd sub e = false ∧ isWorktreeRemove e = false ∧
      isPlainPush e = false ∧ isUpstreamPush e = false := by
  cases e with
  | cmd argv =>
    match argv with
    | [] => exact ⟨rfl, rfl, rfl, rfl⟩
    | [a] => simp [isGitCmd, isWorktreeRemove, isPlainPush, isUpstreamPush]
    | [a, b] =>
      simp only [isGitInvocation] at h
      simp [isGitCmd, isWorktreeRemove, isPlainPush, isUpstreamPush, h]
    | a :: b :: c :: t =>
      simp only [isGitInvocation] at h
      simp [isGitCmd, isWorktreeRemove, isPlainPush, isUpstreamPush, h]
  | writeFile n => exact ⟨rfl, rfl, rfl, rfl⟩
  | deleteFile n => exact ⟨rfl, rfl, rfl, rfl⟩
  | warn m => exact ⟨rfl, rfl, rfl, rfl⟩

/-- A trace free of `git` invocations satisfies none of the `git`-specific
trace observers. -/
theorem observers_of_no_git (l : List Event) (h : touchesGit l = false) :
    (∀ sub, invokesGit sub l = false) ∧ removesWorktree l = false ∧
      l.countP isPlainPush = 0 ∧ l.countP isUpstreamPush = 0 ∧
      (∀ sub, l.countP (isGitCmd sub) = 0) := by
  rw [touchesGit, List.any_eq_false] at h
  refine ⟨fun sub => ?_, ?_, ?_, ?_, fun sub => ?_⟩
  · rw [invokesGit, List.any_eq_false]
    intro e he
    simp [(not_git_event sub e (by simpa using h e he)).1]
  · rw [removesWorktree, List.any_eq_false]
    intro e he
    simp [(not_git_event "" e (by simpa using h e he)).2.1]
  · rw [List.countP_eq_zero]
    intro e he
    simp [(not_git_event "" e (by simpa using h e he)).2.2.1]
  · rw [List.countP_eq_zero]
    intro e he
    simp [(not_git_event "" e (by simpa using h e he)).2.2.2]
  · rw [List.countP_eq_zero]
    intro e he
    simp [(not_git_event sub e (by simpa using h e he)).1]

/-- `prepare_claude_config` performs no `git` invocation. -/
theorem touchesGit_prepare (env : Env) :
    touchesGit (prepare_claude_config env).1 = false := by
  unfold prepare_claude_config
  split <;> (try split) <;> (try split) <;>
    simp [touchesGit, isGitInvocation]

/-- The build phase performs no `git` invocation. -/
theorem touchesGit_build (env : Env) (nc : Bool) :
    touchesGit (build_phase env nc).1 = false := by
  unfold build_phase should_build_events build_cmd
  split <;> [split; split] <;> (try split) <;>
    simp [touchesGit, isGitInvocation, image_name]

/-- `cleanup_temp_files` performs no `git` invocation. -/
theorem touchesGit_temp : touchesGit cleanup_temp_files = false := rfl

/-- `stop_existing_container` performs no `git` invocation. -/
theorem touchesGit_stop (env : Env) :
    touchesGit (stop_existing_container env) = false := by
  unfold stop_existing_container
  split <;> simp [touchesGit, isGitInvocation, container_name]

/-- `run_container` performs no `git` invocation. -/
theorem touchesGit_runc (env : Env) (mp : String) (m pm : Option String) :
    touchesGit (run_container env mp m pm) = false := by
  unfold run_container run_container_args base_run_args
  cases m <;> simp [touchesGit, isGitInvocation, image_name, container_name]

/-- Post-processing is a no-op when the worktree was not created by this
run. -/
theorem post_not_created (env : Env) (wp : Option String) :
    handle_worktree_post_processing env false wp = ([], true) := by
  simp [handle_worktree_post_processing]

/-- Teardown is a no-op when the worktree was not created by this run. -/
theorem td_not_created (env : Env) (wp : Option String) (cu : Bool) :
    cleanup_worktree_if_needed env wp cu false = [] := by
  cases wp <;> simp [cleanup_worktree_if_needed]

/-- Teardown is a no-op when cleanup is disabled. -/
theorem td_no_cleanup (env : Env) (wp : Option String) (cr : Bool) :
    cleanup_worktree_if_needed env wp false cr = [] := by
  cases wp <;> simp [cleanup_worktree_if_needed]

/-- Every teardown event is a `git worktree ...` invocation. -/
theorem td_events_shape (env : Env) (wp : Option String) (cu cr : Bool) :
    ∀ e ∈ cleanup_worktree_if_needed env wp cu cr, isGitCmd "worktree" e = true := by
  intro e he
  unfold cleanup_worktree_if_needed at he
  split at he
  · simp at he
  · split at he
    · split at he
      · simp at he
        rcases he with he | he <;> subst he <;> rfl
      · simp at he
        subst he; rfl
    · simp at he

/-- A `git worktree ...` invocation is neither push form, is not a commit,
is not an artifact deletion, is no `podman` command, and is not the
push-failure warning. -/
theorem worktree_cmd_not_push (e : Event) (h : isGitCmd "worktree" e = true) :
    isPlainPush e = false ∧ isUpstreamPush e = false ∧
      isGitCmd "commit" e = false ∧ isDeleteFile e = false ∧
      isPodmanRun e = false ∧ isPodmanBuild e = false ∧
      (e == Event.warn "Warning: Failed to push changes to remote") = false := by
  cases e with
  | cmd argv =>
    match argv with
    | [] => simp [isGitCmd] at h
    | [a] => simp [isGitCmd] at h
    | a :: c :: t =>
      simp only [isGitCmd, Bool.and_eq_true, beq_iff_eq] at h
      obtain ⟨ha, hc⟩ := h
      subst ha hc
      match t with
      | [] => simp [isPlainPush, isUpstreamPush, isGitCmd, isDeleteFile,
          isPodmanRun, isPodmanBuild]
      | c2 :: t2 => simp [isPlainPush, isUpstreamPush, isGitCmd, isDeleteFile,
          isPodmanRun, isPodmanBuild]
  | writeFile n => simp [isGitCmd] at h
  | deleteFile n => simp [isGitCmd] at h
  | warn m => simp [isGitCmd] at h

/-- If teardown removes a worktree, cleanup was enabled and the worktree was
created by this run. -/
theorem td_remove (env : Env) (wp : Option String) (cu cr : Bool)
    (h : removesWorktree (cleanup_worktree_if_needed env wp cu cr) = true) :
    cu = true ∧ cr = true := by
  cases cu with
  | true =>
    cases cr with
    | true => exact ⟨rfl, rfl⟩
    | false => rw [td_not_created] at h; exact absurd h (by simp [removesWorktree])
  | false => rw [td_no_cleanup] at h; exact absurd h (by simp [removesWorktree])

/-- Post-processing never removes a worktree. -/
theorem removesWorktree_post (env : Env) (cr : Bool) (wp : Option String) :
    removesWorktree (handle_worktree_post_processing env cr wp).1 = false := by
  unfold handle_worktree_post_processing
  split
  · dsimp only
    split_ifs <;> simp [removesWorktree, isWorktreeRemove, commit_msg]
  · rfl

/-- Post-processing never deletes a build-context artifact, never starts a
container and never builds an image. -/
theorem post_misc_observers (env : Env) (cr : Bool) (wp : Option String) :
    deletesArtifacts (handle_worktree_post_processing env cr wp).1 = false ∧
      startsContainer (handle_worktree_post_processing env cr wp).1 = false ∧
      buildsImage (handle_worktree_post_processing env cr wp).1 = false := by
  unfold handle_worktree_post_processing
  split
  · dsimp only
    split_ifs <;>
      simp [deletesArtifacts, isDeleteFile, startsContainer, isPodmanRun,
        buildsImage, isPodmanBuild, commit_msg]
  · exact ⟨rfl, rfl, rfl⟩

/-- Successful configuration preparation writes exactly the two artifacts. -/
theorem prepare_ok (env : Env) (h1 : env.credentialsExist = true)
    (h2 : env.userConfigExists = true) (h3 : env.configParseOk = true) :
    prepare_claude_config env =
      ([Event.writeFile ".credentials.json", Event.writeFile ".claude.json"], .ok ()) := by
  simp [prepare_claude_config, h1, h2, h3]

/-- A successful build command keeps the build phase exception-free. -/
theorem build_phase_ok (env : Env) (nc : Bool) (h : env.buildOk = true) :
    (build_phase env nc).2 = true := by
  unfold build_phase
  split <;> simp [h]

/-- The build phase emits the `podman build` command exactly when
`should_build_image` decides to build. -/
theorem buildsImage_build_phase (env : Env) (nc : Bool) :
    buildsImage (build_phase env nc).1 = should_build_image env nc := by
  unfold build_phase should_build_events build_cmd
  split <;> [split; split] <;> (try split) <;>
    simp_all [buildsImage, isPodmanBuild, image_name, should_build_image]

/-- Decomposition of the `try` body when configuration preparation and the
image build (if any) succeed. -/
theorem try_decomp (env : Env) (args : Args) (st : RunState)
    (h1 : env.credentialsExist = true) (h2 : env.userConfigExists = true)
    (h3 : env.configParseOk = true) (h4 : env.buildOk = true) :
    try_phases env args st =
      ([Event.writeFile ".credentials.json", Event.writeFile ".claude.json"] ++
        (build_phase env args.no_cache).1 ++ cleanup_temp_files ++
        stop_existing_container env ++
        run_container env st.mount_path args.message args.permission_mode ++
        (handle_worktree_post_processing env st.worktree_created st.worktree_path).1,
       if (handle_worktree_post_processing env st.worktree_created st.worktree_path).2
       then Outcome.ok else Outcome.exn) := by
  unfold try_phases
  rw [prepare_ok env h1 h2 h3]
  simp [build_phase_ok env args.no_cache h4]

/-- Decomposition of `run` once the checkout phase has produced a state: the
`try` body runs and the teardown events are appended unconditionally. -/
theorem run_decomp (env : Env) (args : Args) (cwd : String) (e : List Event)
    (st : RunState) (hd : env.dockerfileExists = true)
    (hc : checkout_phase env args cwd (!args.keep_worktree) = .inr (e, st)) :
    run env args cwd =
      ⟨e ++ (try_phases env args st).1 ++
        cleanup_worktree_if_needed env st.worktree_path st.cleanup_worktree
          st.worktree_created,
       (try_phases env args st).2, st.mount_path, st.worktree_path,
       st.worktree_created, st.cleanup_worktree⟩ := by
  unfold run
  rw [hd]
  simp only [Bool.not_true, Bool.false_eq_true, if_false, hc]

/-- `create_worktree` has exactly three behaviours: success, fallback to the
current directory, or `sys.exit(1)` outside a repository. -/
theorem create_worktree_cases (env : Env) (cwd b : String) :
    create_worktree env cwd b =
      ([Event.cmd ["git", "rev-parse", "--git-dir"], Event.cmd worktree_add_cmd],
       .ok (cwd ++ "/claude_wt", true)) ∨
    create_worktree env cwd b =
      ([Event.cmd ["git", "rev-parse", "--git-dir"], Event.cmd worktree_add_cmd,
        Event.warn "Failed to create worktree. Using current directory instead."],
       .ok (cwd, false)) ∨
    create_worktree env cwd b =
      ([Event.cmd ["git", "rev-parse", "--git-dir"],
        Event.warn "Error: Not in a git repository. Worktree requires a git repository."],
       .error 1) := by
  unfold create_worktree
  split <;> [split; skip] <;> simp

/-- The checkout phase has exactly five behaviours: bypass, reuse of a
supplied path, successful creation, fallback to the current directory, or
`sys.exit(1)` outside a repository. -/
theorem checkout_phase_cases (env : Env) (args : Args) (cwd : String) (cl : Bool) :
    checkout_phase env args cwd cl = .inr ([], ⟨cwd, none, false, cl⟩) ∨
    (∃ p, args.worktree_path = some p ∧
      checkout_phase env args cwd cl = .inr ([], ⟨p, some p, false, false⟩)) ∨
    checkout_phase env args cwd cl =
      .inr ([Event.cmd ["git", "rev-parse", "--git-dir"], Event.cmd worktree_add_cmd],
            ⟨cwd ++ "/claude_wt", some (cwd ++ "/claude_wt"), true, cl⟩) ∨
    checkout_phase env args cwd cl =
      .inr ([Event.cmd ["git", "rev-parse", "--git-dir"], Event.cmd worktree_add_cmd,
             Event.warn "Failed to create worktree. Using current directory instead."],
            ⟨cwd, some cwd, false, cl⟩) ∨
    checkout_phase env args cwd cl =
      .inl ([Event.cmd ["git", "rev-parse", "--git-dir"],
             Event.warn "Error: Not in a git repository. Worktree requires a git repository."], 1) := by
  unfold checkout_phase
  by_cases hnw : args.no_worktree = true
  · exact Or.inl (by simp [hnw])
  · by_cases hov : (args.worktree_path.isSome && env.worktreePathExists) = true
    · rcases hq : args.worktree_path with _ | p
      · rw [hq] at hov
        simp at hov
      · rw [hq] at hov
        simp only [Option.isSome_some, Bool.true_and] at hov
        refine Or.inr (Or.inl ⟨p, rfl, ?_⟩)
        simp [hnw, hov]
    · rcases create_worktree_cases env cwd (branch_arg args.worktree_branch) with h | h | h
      · refine Or.inr (Or.inr (Or.inl ?_))
        simp [hnw, hov, h]
      · refine Or.inr (Or.inr (Or.inr (Or.inl ?_)))
        simp [hnw, hov, h]
      · refine Or.inr (Or.inr (Or.inr (Or.inr ?_)))
        simp [hnw, hov, h]

/-- The checkout phase, when it does not exit, produces one of three event
lists (nothing for bypass or reuse, the creation commands, or the creation
commands plus the fallback warning), and its state either keeps the caller's
cleanup flag or disables cleanup. -/
theorem checkout_inr_cases (env : Env) (args : Args) (cwd : String)
    (cl : Bool) (e : List Event) (st : RunState)
    (hc : checkout_phase env args cwd cl = .inr (e, st)) :
    (e = [] ∨
      e = [Event.cmd ["git", "rev-parse", "--git-dir"], Event.cmd worktree_add_cmd] ∨
      e = [Event.cmd ["git", "rev-parse", "--git-dir"], Event.cmd worktree_add_cmd,
           Event.warn "Failed to create worktree. Using current directory instead."]) ∧
    (st.cleanup_worktree = cl ∨ st.cleanup_worktree = false) := by
  rcases checkout_phase_cases env args cwd cl with h | ⟨p, _, h⟩ | h | h | h <;>
    rw [h] at hc <;>
    simp only [Sum.inr.injEq, Prod.mk.injEq, reduceCtorEq] at hc
  · obtain ⟨h1, h2⟩ := hc
    subst h1; subst h2
    exact ⟨Or.inl rfl, Or.inl rfl⟩
  · obtain ⟨h1, h2⟩ := hc
    subst h1; subst h2
    exact ⟨Or.inl rfl, Or.inr rfl⟩
  · obtain ⟨h1, h2⟩ := hc
    subst h1; subst h2
    exact ⟨Or.inr (Or.inl rfl), Or.inl rfl⟩
  · obtain ⟨h1, h2⟩ := hc
    subst h1; subst h2
    exact ⟨Or.inr (Or.inr rfl), Or.inl rfl⟩

/-- The checkout phase, when it exits, performed only the repository probe
and a warning, and exits with status 1. -/
theorem checkout_inl_cases (env : Env) (args : Args) (cwd : String)
    (cl : Bool) (e : List Event) (n : Nat)
    (hc : checkout_phase env args cwd cl = .inl (e, n)) :
    e = [Event.cmd ["git", "rev-parse", "--git-dir"],
         Event.warn "Error: Not in a git repository. Worktree requires a git repository."] ∧
      n = 1 := by
  rcases checkout_phase_cases env args cwd cl with h | ⟨p, _, h⟩ | h | h | h <;>
    rw [h] at hc <;>
    simp only [Sum.inl.injEq, Prod.mk.injEq, reduceCtorEq] at hc
  obtain ⟨h1, h2⟩ := hc
  subst h1; subst h2
  exact ⟨rfl, rfl⟩

/-- The checkout phase when a new worktree is created successfully. -/
theorem checkout_create_ok (env : Env) (args : Args) (cwd : String) (cl : Bool)
    (hnw : args.no_worktree = false) (hwp : args.worktree_path = none)
    (hg : env.isGitRepo = true) (ha : env.worktreeAddOk = true) :
    checkout_phase env args cwd cl =
      .inr ([Event.cmd ["git", "rev-parse", "--git-dir"], Event.cmd worktree_add_cmd],
            ⟨cwd ++ "/claude_wt", some (cwd ++ "/claude_wt"), true, cl⟩) := by
  unfold checkout_phase create_worktree
  simp [hnw, hwp, hg, ha]

/-- The checkout phase when worktree creation fails and the run falls back
to the current directory. -/
theorem checkout_fallback (env : Env) (args : Args) (cwd : String) (cl : Bool)
    (hnw : args.no_worktree = false) (hwp : args.worktree_path = none)
    (hg : env.isGitRepo = true) (ha : env.worktreeAddOk = false) :
    checkout_phase env args cwd cl =
      .inr ([Event.cmd ["git", "rev-parse", "--git-dir"], Event.cmd worktree_add_cmd,
             Event.warn "Failed to create worktree. Using current directory instead."],
            ⟨cwd, some cwd, false, cl⟩) := by
  unfold checkout_phase create_worktree
  simp [hnw, hwp, hg, ha]

/-- The checkout phase when an existing worktree path is supplied and
exists: it is reused, nothing is created, and cleanup is disabled. -/
theorem checkout_override (env : Env) (args : Args) (cwd : String) (cl : Bool)
    (p : String) (hnw : args.no_worktree = false)
    (hwp : args.worktree_path = some p) (he : env.worktreePathExists = true) :
    checkout_phase env args cwd cl = .inr ([], ⟨p, some p, false, false⟩) := by
  unfold checkout_phase
  simp [hnw, hwp, he]

/-- The checkout phase under `--no-worktree`. -/
theorem checkout_bypass (env : Env) (args : Args) (cwd : String) (cl : Bool)
    (hnw : args.no_worktree = true) :
    checkout_phase env args cwd cl = .inr ([], ⟨cwd, none, false, cl⟩) := by
  unfold checkout_phase
  simp [hnw]

/-- `touchesGit` distributes over concatenation. -/
theorem touchesGit_append (a b : List Event) :
    touchesGit (a ++ b) = (touchesGit a || touchesGit b) := List.any_append

/-- `removesWorktree` distributes over concatenation. -/
theorem removesWorktree_append (a b : List Event) :
    removesWorktree (a ++ b) = (removesWorktree a || removesWorktree b) := List.any_append

/-- `buildsImage` distributes over concatenation. -/
theorem buildsImage_append (a b : List Event) :
    buildsImage (a ++ b) = (buildsImage a || buildsImage b) := List.any_append

/-- `deletesArtifacts` distributes over concatenation. -/
theorem deletesArtifacts_append (a b : List Event) :
    deletesArtifacts (a ++ b) = (deletesArtifacts a || deletesArtifacts b) := List.any_append

/-- `startsContainer` distributes over concatenation. -/
theorem startsContainer_append (a b : List Event) :
    startsContainer (a ++ b) = (startsContainer a || startsContainer b) := List.any_append

/-- `removesWorktree` of the empty trace. -/
theorem removesWorktree_nil : removesWorktree [] = false := rfl

/-- `invokesGit` of the empty trace. -/
theorem invokesGit_nil (sub : String) : invokesGit sub [] = false := rfl

/-- `invokesGit` distributes over concatenation. -/
theorem invokesGit_append (sub : String) (a b : List Event) :
    invokesGit sub (a ++ b) = (invokesGit sub a || invokesGit sub b) := List.any_append

/-- `warnsPushFailure` distributes over concatenation. -/
theorem warnsPushFailure_append (a b : List Event) :
    warnsPushFailure (a ++ b) = (warnsPushFailure a || warnsPushFailure b) := List.any_append

/-- Configuration preparation either succeeds or calls `sys.exit(1)`. -/
theorem prepare_claude_config_cases (env : Env) :
    (prepare_claude_config env).2 = .ok () ∨ (prepare_claude_config env).2 = .error 1 := by
  unfold prepare_claude_config
  split <;> (try split) <;> (try split) <;> simp

/-- The `try` body ends in normal completion, `sys.exit(1)`, or an uncaught
exception — never any other exit status. -/
theorem try_phases_outcome (env : Env) (args : Args) (st : RunState) :
    (try_phases env args st).2 = .ok ∨ (try_phases env args st).2 = .exit 1 ∨
      (try_phases env args st).2 = .exn := by
  unfold try_phases
  rcases hp : prepare_claude_config env with ⟨e1, r⟩
  have hr := prepare_claude_config_cases env
  rw [hp] at hr
  simp only at hr
  rcases hr with h | h <;> subst h
  · dsimp only
    split
    · exact Or.inr (Or.inr rfl)
    · cases hpp : (handle_worktree_post_processing env st.worktree_created st.worktree_path).2 <;>
        simp [hpp]
  · exact Or.inr (Or.inl rfl)

/-- When preparation succeeds but the image build fails, the `try` body stops
right after the build command, with an uncaught exception: in particular the
temp-file cleanup step is never reached. -/
theorem try_phases_build_fail (env : Env) (args : Args) (st : RunState)
    (h1 : env.credentialsExist = true) (h2 : env.userConfigExists = true)
    (h3 : env.configParseOk = true)
    (hsb : should_build_image env args.no_cache = true)
    (hb : env.buildOk = false) :
    try_phases env args st =
      ([Event.writeFile ".credentials.json", Event.writeFile ".claude.json"] ++
        (build_phase env args.no_cache).1, .exn) := by
  unfold try_phases
  rw [prepare_ok env h1 h2 h3]
  have hb2 : (build_phase env args.no_cache).2 = false := by
    unfold build_phase
    rw [if_pos hsb]
    exact hb
  simp [hb2]

/-- The `try` body never removes a worktree. -/
theorem removesWorktree_try (env : Env) (args : Args) (st : RunState) :
    removesWorktree (try_phases env args st).1 = false := by
  unfold try_phases
  rcases hp : prepare_claude_config env with ⟨e1, r⟩
  have he1 := (observers_of_no_git _ (by rw [hp] at *; exact touchesGit_prepare env)).2.1
  rw [hp] at he1
  simp only at he1
  have hb := (observers_of_no_git _ (touchesGit_build env args.no_cache)).2.1
  have ht := (observers_of_no_git _ touchesGit_temp).2.1
  have hs := (observers_of_no_git _ (touchesGit_stop env)).2.1
  have hrc := (observers_of_no_git _
    (touchesGit_runc env st.mount_path args.message args.permission_mode)).2.1
  have hpo := removesWorktree_post env st.worktree_created st.worktree_path
  cases r with
  | error n => simpa using he1
  | ok u =>
    dsimp only
    split <;>
      simp [removesWorktree_append, he1, hb, ht, hs, hrc, hpo]

/-- The `try` body performs no `git` invocation at all when the worktree was
not created by this run. -/
theorem touchesGit_try_not_created (env : Env) (args : Args) (st : RunState)
    (hcr : st.worktree_created = false) :
    touchesGit (try_phases env args st).1 = false := by
  unfold try_phases
  rcases hp : prepare_claude_config env with ⟨e1, r⟩
  have he1 := touchesGit_prepare env
  rw [hp] at he1
  simp only at he1
  cases r with
  | error n => simpa using he1
  | ok u =>
    dsimp only
    rw [hcr, post_not_created]
    split <;>
      simp [touchesGit_append, he1, touchesGit_build, touchesGit_temp,
        touchesGit_stop, touchesGit_runc]

/-- Teardown events are push-free, commit-free, deletion-free and
container-free. -/
theorem td_observers (env : Env) (wp : Option String) (cu cr : Bool) :
    (cleanup_worktree_if_needed env wp cu cr).countP isPlainPush = 0 ∧
    (cleanup_worktree_if_needed env wp cu cr).countP isUpstreamPush = 0 ∧
    (cleanup_worktree_if_needed env wp cu cr).countP (isGitCmd "commit") = 0 ∧
    deletesArtifacts (cleanup_worktree_if_needed env wp cu cr) = false ∧
    buildsImage (cleanup_worktree_if_needed env wp cu cr) = false ∧
    warnsPushFailure (cleanup_worktree_if_needed env wp cu cr) = false := by
  have hs := td_events_shape env wp cu cr
  refine ⟨?_, ?_, ?_, ?_, ?_, ?_⟩
  · rw [List.countP_eq_zero]
    intro e he
    simp [(worktree_cmd_not_push e (hs e he)).1]
  · rw [List.countP_eq_zero]
    intro e he
    simp [(worktree_cmd_not_push e (hs e he)).2.1]
  · rw [List.countP_eq_zero]
    intro e he
    simp [(worktree_cmd_not_push e (hs e he)).2.2.1]
  · rw [deletesArtifacts, List.any_eq_false]
    intro e he
    simp [(worktree_cmd_not_push e (hs e he)).2.2.2.1]
  · rw [buildsImage, List.any_eq_false]
    intro e he
    simp [(worktree_cmd_not_push e (hs e he)).2.2.2.2.2.1]
  · rw [warnsPushFailure, List.any_eq_false]
    intro e he
    simp [(worktree_cmd_not_push e (hs e he)).2.2.2.2.2.2]

/-- `prepare_claude_config` deletes nothing and builds nothing. -/
theorem prepare_misc_observers (env : Env) :
    deletesArtifacts (prepare_claude_config env).1 = false ∧
      buildsImage (prepare_claude_config env).1 = false := by
  unfold prepare_claude_config
  split <;> (try split) <;> (try split) <;>
    simp [deletesArtifacts, isDeleteFile, buildsImage, isPodmanBuild]

/-- The build phase deletes nothing. -/
theorem deletesArtifacts_build (env : Env) (nc : Bool) :
    deletesArtifacts (build_phase env nc).1 = false := by
  unfold build_phase should_build_events build_cmd
  split <;> [split; split] <;> (try split) <;>
    simp [deletesArtifacts, isDeleteFile, image_name]

/-- `stop_existing_container` builds nothing and deletes nothing. -/
theorem stop_misc_observers (env : Env) :
    buildsImage (stop_existing_container env) = false ∧
      deletesArtifacts (stop_existing_container env) = false := by
  unfold stop_existing_container
  split <;>
    simp [buildsImage, isPodmanBuild, deletesArtifacts, isDeleteFile, container_name]

/-- `run_container` builds nothing, deletes nothing, and does start the
container. -/
theorem runc_misc_observers (env : Env) (mp : String) (m pm : Option String) :
    buildsImage (run_container env mp m pm) = false ∧
      deletesArtifacts (run_container env mp m pm) = false ∧
      startsContainer (run_container env mp m pm) = true := by
  unfold run_container run_container_args base_run_args
  cases m <;>
    simp [buildsImage, isPodmanBuild, deletesArtifacts, isDeleteFile,
      startsContainer, isPodmanRun]

/-- `run` when the checkout phase exits (outside the `try`): no teardown. -/
theorem run_inl (env : Env) (args : Args) (cwd : String) (e : List Event)
    (n : Nat) (hd : env.dockerfileExists = true)
    (hc : checkout_phase env args cwd (!args.keep_worktree) = .inl (e, n)) :
    run env args cwd = ⟨e, .exit n, cwd, none, false, !args.keep_worktree⟩ := by
  unfold run
  rw [hd]
  simp only [Bool.not_true, Bool.false_eq_true, if_false, hc]

/-- The `try` body issues the `podman build` command exactly when
`should_build_image` decides to build (given that configuration preparation
succeeds), whether or not the build then fails. -/
theorem buildsImage_try (env : Env) (args : Args) (st : RunState)
    (h1 : env.credentialsExist = true) (h2 : env.userConfigExists = true)
    (h3 : env.configParseOk = true) :
    buildsImage (try_phases env args st).1 = should_build_image env args.no_cache := by
  have hW : buildsImage
      [Event.writeFile ".credentials.json", Event.writeFile ".claude.json"] = false := by
    decide
  have hT : buildsImage cleanup_temp_files = false := by decide
  unfold try_phases
  rw [prepare_ok env h1 h2 h3]
  dsimp only
  split
  · simp only [buildsImage_append, hW, buildsImage_build_phase, Bool.false_or]
  · simp only [buildsImage_append, hW, hT, buildsImage_build_phase,
      (stop_misc_observers env).1,
      (runc_misc_observers env st.mount_path args.message args.permission_mode).1,
      (post_misc_observers env st.worktree_created st.worktree_path).2.2,
      Bool.or_false, Bool.false_or]

/-! Concrete instances used by witnesses and counterexamples. -/

/-- An all-healthy world: in a git repository, worktree creation succeeds,
all configuration sources are present and parse; no image exists yet, the
build succeeds, no stale container, the worktree directory exists, and there
are no changes to reconcile. -/
def baseEnv : Env :=
  { isGitRepo := true, worktreeAddOk := true, worktreePathExists := true,
    credentialsExist := true, userConfigExists := true, configParseOk := true,
    imageExists := false, inspectOk := true, dockerfileExists := true,
    buildOk := true, containerExists := false, worktreeDirExists := true,
    hasUnstagedChanges := false, hasStagedChanges := false, untrackedOutput := "",
    addOk := true, commitOk := true, branchOk := true, currentBranch := "main",
    pushOk := true, pushUpstreamOk := true, worktreeInList := true,
    timestamp := "2024-01-01 00:00:00", uid := "1000", gid := "1000",
    user_name := "dev", script_dir := "/home/dev/bin",
    dockerfile_path := "/tmp/t/claude-code-ubuntu.dockerfile" }

/-- Defaults of `parse_args`: no message, no forced rebuild, no permission
mode, no branch, keep/bypass/override flags unset. -/
def baseArgs : Args := ⟨none, false, none, none, false, false, none⟩

/-! The claims. -/

/-- C1 (counterexample): in an all-healthy world whose image build fails,
the run exits with status 1 and the `finally`-based teardown still removes
the checkout, but the configuration artifacts that were written into the
build context are never deleted — `cleanup_temp_files` sits inside the `try`
body, after the build, not in the `finally` — refuting the claim that on an
image-build failure the teardown deletes the copied credentials file and the
generated `.claude.json`. -/
theorem C1_counterexample :
    (Event.writeFile ".credentials.json") ∈
        (run { baseEnv with buildOk := false } baseArgs "/repo").events ∧
    (Event.writeFile ".claude.json") ∈
        (run { baseEnv with buildOk := false } baseArgs "/repo").events ∧
    (run { baseEnv with buildOk := false } baseArgs "/repo").outcome.code = 1 ∧
    removesWorktree (run { baseEnv with buildOk := false } baseArgs "/repo").events = true ∧
    deletesArtifacts (run { baseEnv with buildOk := false } baseArgs "/repo").events = false := by
  decide

/-- C2 (code bug, evaluated): `create_worktree` is asked for a worktree
seeded from `"feature-x"`; the only creation command it runs is the fixed
`git worktree add -b claude_wt wt_temp/`, whose argv never mentions the
requested source ref and whose target path (its last argument) is
`wt_temp/`; yet the method returns `<cwd>/claude_wt` with `created=true`,
a path different from the one the command creates — contradicting the
script's own messages ("Creating git worktree 'claude_wt' from
'<branch>'...", "Worktree created at: <cwd>/claude_wt") and the
`--worktree-branch` help text. -/
theorem C2_worktree_divergence :
    (create_worktree baseEnv "/repo" "feature-x").2 = .ok ("/repo/claude_wt", true) ∧
    (create_worktree baseEnv "/repo" "feature-x").1 =
      [Event.cmd ["git", "rev-parse", "--git-dir"],
       Event.cmd ["git", "worktree", "add", "-b", "claude_wt", "wt_temp/"]] ∧
    "feature-x" ∉ worktree_add_cmd ∧
    worktree_add_cmd.getLast? = some "wt_temp/" ∧
    "wt_temp/" ≠ "claude_wt" :=
  ⟨rfl, rfl, by decide, rfl, by decide⟩

/-- The decision policy exactly as the specification words it (for
comparison with `should_build_image`): rebuild if the forced flag is set;
else rebuild if no image with the tag exists; else rebuild if the build
recipe resource is present AND newer than a last-known-build marker. -/
def specRebuildPolicy (forceRebuild imageExists recipePresent recipeNewer : Bool) : Bool :=
  if forceRebuild then true
  else if !imageExists then true
  else recipePresent && recipeNewer

/-- C3 (counterexample): with an image present, a successful inspect query
and the recipe file present but NOT newer than the last build, the code
still decides to build (`should_build_image` consults no timestamp — the
code's comment says "For simplicity, always rebuild if Dockerfile exists"),
while the claimed policy decides not to. -/
theorem C3_counterexample :
    should_build_image { baseEnv with imageExists := true } false = true ∧
    specRebuildPolicy false true true false = false := by
  decide

/-- C7: a reconciliation that finds an empty change set — no unstaged diff,
no staged diff, no untracked output — attempts no stage, no commit and no
push, and completes without raising (`committed=false` is the absence of any
commit command). -/
theorem C7_empty_changeset (env : Env) (cr : Bool) (wp : Option String)
    (h1 : env.hasUnstagedChanges = false) (h2 : env.hasStagedChanges = false)
    (h3 : env.untrackedOutput = "") :
    invokesGit "add" (handle_worktree_post_processing env cr wp).1 = false ∧
    invokesGit "commit" (handle_worktree_post_processing env cr wp).1 = false ∧
    invokesGit "push" (handle_worktree_post_processing env cr wp).1 = false ∧
    (handle_worktree_post_processing env cr wp).2 = true := by
  unfold handle_worktree_post_processing
  split
  · dsimp only
    simp [h1, h2, h3, invokesGit, isGitCmd]
  · simp [invokesGit]

/-- C7 (witness): the empty-change-set reconciliation at a concrete world. -/
theorem C7_empty_changeset_witness :
    invokesGit "add" (handle_worktree_post_processing baseEnv true (some "/repo/claude_wt")).1 = false ∧
    invokesGit "commit" (handle_worktree_post_processing baseEnv true (some "/repo/claude_wt")).1 = false ∧
    invokesGit "push" (handle_worktree_post_processing baseEnv true (some "/repo/claude_wt")).1 = false ∧
    (handle_worktree_post_processing baseEnv true (some "/repo/claude_wt")).2 = true :=
  C7_empty_changeset baseEnv true (some "/repo/claude_wt") rfl rfl rfl

/-- C1 (amended): once the checkout phase has produced a state, the
`finally`-based teardown events always terminate the trace, any abnormal end
of the `try` body exits the process with status 1, and the checkout is
removed whenever it is owned, cleanup is enabled and the worktree is listed;
the configuration artifacts, however, are deleted only on the success path
after the image build — when the build fails they are left behind. -/
theorem C1_teardown (env : Env) (args : Args) (cwd : String)
    (e : List Event) (st : RunState)
    (hd : env.dockerfileExists = true)
    (hc : checkout_phase env args cwd (!args.keep_worktree) = .inr (e, st)) :
    (∃ pre, (run env args cwd).events =
      pre ++ cleanup_worktree_if_needed env st.worktree_path st.cleanup_worktree
        st.worktree_created) ∧
    ((run env args cwd).outcome ≠ .ok → (run env args cwd).outcome.code = 1) ∧
    (st.worktree_created = true → st.cleanup_worktree = true →
      env.worktreeInList = true →
      removesWorktree (run env args cwd).events = true) ∧
    (env.buildOk = false → should_build_image env args.no_cache = true →
      env.credentialsExist = true → env.userConfigExists = true →
      env.configParseOk = true →
      deletesArtifacts (run env args cwd).events = false) := by
  have hev := (checkout_inr_cases env args cwd _ e st hc).1
  rw [run_decomp env args cwd e st hd hc]
  refine ⟨⟨e ++ (try_phases env args st).1, rfl⟩, ?_, ?_, ?_⟩
  · intro hne
    rcases try_phases_outcome env args st with h | h | h
    · exact absurd h hne
    · simp [h, Outcome.code]
    · simp [h, Outcome.code]
  · intro hcr hcu hil
    have hqq : ∃ q, st.worktree_path = some q := by
      rcases checkout_phase_cases env args cwd (!args.keep_worktree)
        with h | ⟨p, hp, h⟩ | h | h | h <;>
        rw [h] at hc <;>
        simp only [Sum.inr.injEq, Prod.mk.injEq, reduceCtorEq] at hc <;>
        obtain ⟨h1', h2'⟩ := hc <;> subst h2'
      · exact absurd hcr (by simp)
      · exact absurd hcr (by simp)
      · exact ⟨_, rfl⟩
      · exact absurd hcr (by simp)
    obtain ⟨q, hq⟩ := hqq
    have htd : removesWorktree (cleanup_worktree_if_needed env st.worktree_path
        st.cleanup_worktree st.worktree_created) = true := by
      rw [hq, hcr, hcu]
      simp [cleanup_worktree_if_needed, hil, removesWorktree, isWorktreeRemove]
    simp only [removesWorktree_append, htd, Bool.or_true]
  · intro hb hsb h1 h2 h3
    have hde : deletesArtifacts e = false := by
      rcases hev with rfl | rfl | rfl <;> decide
    have hdW : deletesArtifacts
        [Event.writeFile ".credentials.json", Event.writeFile ".claude.json"] = false := by
      decide
    rw [try_phases_build_fail env args st h1 h2 h3 hsb hb]
    simp only [deletesArtifacts_append, hde, hdW, deletesArtifacts_build,
      (td_observers env st.worktree_path st.cleanup_worktree st.worktree_created).2.2.2.1,
      Bool.or_false, Bool.false_or]

/-- C1 (witness): a concrete failing-build run in which the teardown events
do terminate the trace. -/
theorem C1_teardown_witness :
    ∃ pre, (run { baseEnv with buildOk := false } baseArgs "/repo").events =
      pre ++ cleanup_worktree_if_needed { baseEnv with buildOk := false }
        (some "/repo/claude_wt") true true :=
  (C1_teardown _ baseArgs "/repo"
    [Event.cmd ["git", "rev-parse", "--git-dir"], Event.cmd worktree_add_cmd]
    ⟨"/repo/claude_wt", some "/repo/claude_wt", true, true⟩
    rfl (by decide)).1

/-- C3 (amended): once the run reaches the image-decision step (the
configuration preparation succeeded), the `podman build` command is issued
iff the forced-rebuild flag is set, or no image with the tag exists, or the
post-existence inspect query succeeds and the recipe file is present — no
timestamp is ever compared to a last-known-build marker; in particular, with
the forced flag set the build runs even when an image with the tag already
exists. -/
theorem C3_build_decision (env : Env) (args : Args) (cwd : String)
    (e : List Event) (st : RunState)
    (hd : env.dockerfileExists = true)
    (hc : checkout_phase env args cwd (!args.keep_worktree) = .inr (e, st))
    (h1 : env.credentialsExist = true) (h2 : env.userConfigExists = true)
    (h3 : env.configParseOk = true) :
    buildsImage (run env args cwd).events =
      (args.no_cache || !env.imageExists || (env.inspectOk && env.dockerfileExists)) ∧
    (args.no_cache = true → buildsImage (run env args cwd).events = true) := by
  have hev := (checkout_inr_cases env args cwd _ e st hc).1
  have hbe : buildsImage e = false := by
    rcases hev with rfl | rfl | rfl <;> decide
  have hmain : buildsImage (run env args cwd).events =
      should_build_image env args.no_cache := by
    rw [run_decomp env args cwd e st hd hc]
    simp only [buildsImage_append, hbe, buildsImage_try env args st h1 h2 h3,
      (td_observers env st.worktree_path st.cleanup_worktree st.worktree_created).2.2.2.2.1,
      Bool.or_false, Bool.false_or]
  refine ⟨?_, fun hnc => ?_⟩
  · rw [hmain]
    unfold should_build_image
    cases args.no_cache <;> cases env.imageExists <;> cases env.inspectOk <;> simp [hd]
  · rw [hmain]
    simp [should_build_image, hnc]

/-- C3 (witness): a forced rebuild with an image already present does issue
the build command. -/
theorem C3_build_decision_witness :
    buildsImage (run { baseEnv with imageExists := true }
      { baseArgs with no_cache := true } "/repo").events = true :=
  (C3_build_decision _ _ "/repo"
    [Event.cmd ["git", "rev-parse", "--git-dir"], Event.cmd worktree_add_cmd]
    ⟨"/repo/claude_wt", some "/repo/claude_wt", true, true⟩
    rfl (by decide) rfl rfl rfl).2 rfl

/-- C4: the change reconciler runs only when the checkout handle records
`created=true`: in any run whose handle ends with `created=false`, no
`git add`, `git commit`, `git push`, nor even the `git diff` change
detection is ever invoked; and a supplied, existing checkout path override
always yields `created=false` — hence an override run never invokes the
reconciler, regardless of what changes exist. -/
theorem C4_reconciler_gating (env : Env) (args : Args) (cwd : String) :
    ((run env args cwd).worktree_created = false →
      invokesGit "add" (run env args cwd).events = false ∧
      invokesGit "commit" (run env args cwd).events = false ∧
      invokesGit "push" (run env args cwd).events = false ∧
      invokesGit "diff" (run env args cwd).events = false) ∧
    (∀ p, args.worktree_path = some p → env.worktreePathExists = true →
      (run env args cwd).worktree_created = false) := by
  constructor
  · intro hcr
    by_cases hd : env.dockerfileExists = true
    · rcases hco : checkout_phase env args cwd (!args.keep_worktree)
        with ⟨e, n⟩ | ⟨e, st⟩
      · rw [run_inl env args cwd e n hd hco]
        obtain ⟨he, -⟩ := checkout_inl_cases env args cwd _ e n hco
        subst he
        exact ⟨rfl, rfl, rfl, rfl⟩
      · rw [run_decomp env args cwd e st hd hco] at hcr ⊢
        have hcr' : st.worktree_created = false := hcr
        have hobs := observers_of_no_git _
          (touchesGit_try_not_created env args st hcr')
        have hev := (checkout_inr_cases env args cwd _ e st hco).1
        have hce : invokesGit "add" e = false ∧ invokesGit "commit" e = false ∧
            invokesGit "push" e = false ∧ invokesGit "diff" e = false := by
          rcases hev with rfl | rfl | rfl <;>
            exact ⟨by decide, by decide, by decide, by decide⟩
        refine ⟨?_, ?_, ?_, ?_⟩ <;>
          simp only [invokesGit_append, hce.1, hce.2.1, hce.2.2.1, hce.2.2.2,
            hobs.1, hcr', td_not_created, invokesGit_nil, Bool.or_false,
            Bool.false_or]
    · have hd' : env.dockerfileExists = false := by
        revert hd; cases env.dockerfileExists <;> simp
      unfold run
      rw [hd']
      exact ⟨rfl, rfl, rfl, rfl⟩
  · intro p hwp hex
    by_cases hd : env.dockerfileExists = true
    · by_cases hnw : args.no_worktree = true
      · rw [run_decomp env args cwd _ _ hd (checkout_bypass env args cwd _ hnw)]
      · have hnw' : args.no_worktree = false := by
          revert hnw; cases args.no_worktree <;> simp
        rw [run_decomp env args cwd _ _ hd
          (checkout_override env args cwd _ p hnw' hwp hex)]
    · have hd' : env.dockerfileExists = false := by
        revert hd; cases env.dockerfileExists <;> simp
      unfold run
      rw [hd']
      rfl

/-- An override world with changes present in the reused checkout. -/
def overrideEnv : Env :=
  { baseEnv with hasUnstagedChanges := true, untrackedOutput := "x" }

/-- Arguments supplying an existing checkout path override. -/
def overrideArgs : Args :=
  { baseArgs with worktree_path := some "/elsewhere/wt" }

/-- C4 (witness): with an override path supplied and existing, and plenty of
changes present, the handle records `created=false` and the run performs no
reconciliation command. -/
theorem C4_reconciler_gating_witness :
    (run overrideEnv overrideArgs "/repo").worktree_created = false ∧
    invokesGit "add" (run overrideEnv overrideArgs "/repo").events = false ∧
    invokesGit "commit" (run overrideEnv overrideArgs "/repo").events = false ∧
    invokesGit "push" (run overrideEnv overrideArgs "/repo").events = false ∧
    invokesGit "diff" (run overrideEnv overrideArgs "/repo").events = false := by
  have T := C4_reconciler_gating overrideEnv overrideArgs "/repo"
  have hcreated := T.2 "/elsewhere/wt" rfl rfl
  exact ⟨hcreated, (T.1 hcreated).1, (T.1 hcreated).2.1,
    (T.1 hcreated).2.2.1, (T.1 hcreated).2.2.2⟩

/-- C5: when worktree creation fails (inside a repository), the run warns,
falls back to mounting the current working directory with `created=false`,
still starts the container session, completes normally, and fires no
checkout-cleanup action at teardown. -/
theorem C5_checkout_fallback (env : Env) (args : Args) (cwd : String)
    (hd : env.dockerfileExists = true)
    (hnw : args.no_worktree = false) (hwp : args.worktree_path = none)
    (hg : env.isGitRepo = true) (ha : env.worktreeAddOk = false)
    (h1 : env.credentialsExist = true) (h2 : env.userConfigExists = true)
    (h3 : env.configParseOk = true) (h4 : env.buildOk = true) :
    (run env args cwd).mount_path = cwd ∧
    (run env args cwd).worktree_created = false ∧
    Event.warn "Failed to create worktree. Using current directory instead." ∈
      (run env args cwd).events ∧
    startsContainer (run env args cwd).events = true ∧
    removesWorktree (run env args cwd).events = false ∧
    (run env args cwd).outcome = .ok := by
  rw [run_decomp env args cwd _ _ hd
    (checkout_fallback env args cwd (!args.keep_worktree) hnw hwp hg ha)]
  rw [try_decomp env args _ h1 h2 h3 h4]
  have hb := observers_of_no_git _ (touchesGit_build env args.no_cache)
  have hs := observers_of_no_git _ (touchesGit_stop env)
  have hrc := observers_of_no_git _
    (touchesGit_runc env cwd args.message args.permission_mode)
  have hE3 : removesWorktree
      [Event.cmd ["git", "rev-parse", "--git-dir"], Event.cmd worktree_add_cmd,
       Event.warn "Failed to create worktree. Using current directory instead."] = false := by
    decide
  have hW : removesWorktree
      [Event.writeFile ".credentials.json", Event.writeFile ".claude.json"] = false := by
    decide
  have hT : removesWorktree cleanup_temp_files = false := by decide
  refine ⟨rfl, rfl, ?_, ?_, ?_, rfl⟩
  · simp
  · simp only [startsContainer_append,
      (runc_misc_observers env cwd args.message args.permission_mode).2.2,
      Bool.or_true, Bool.true_or]
  · simp only [removesWorktree_append, hE3, hW, hT, hb.2.1, hs.2.1, hrc.2.1,
      post_not_created, td_not_created, removesWorktree_nil,
      Bool.or_false, Bool.false_or]

/-- C5 (witness): worktree creation failing at a concrete healthy world. -/
theorem C5_checkout_fallback_witness :
    (run { baseEnv with worktreeAddOk := false } baseArgs "/repo").mount_path = "/repo" ∧
    (run { baseEnv with worktreeAddOk := false } baseArgs "/repo").worktree_created = false ∧
    Event.warn "Failed to create worktree. Using current directory instead." ∈
      (run { baseEnv with worktreeAddOk := false } baseArgs "/repo").events ∧
    startsContainer (run { baseEnv with worktreeAddOk := false } baseArgs "/repo").events = true ∧
    removesWorktree (run { baseEnv with worktreeAddOk := false } baseArgs "/repo").events = false ∧
    (run { baseEnv with worktreeAddOk := false } baseArgs "/repo").outcome = .ok :=
  C5_checkout_fallback _ baseArgs "/repo" rfl rfl rfl rfl rfl rfl rfl rfl rfl

/-- C8: the checkout is removed at teardown only if it was created by this
run and cleanup-on-exit is enabled — in particular a `--keep-worktree` run
never removes it (contrapositive of the second conjunct). -/
theorem C8_cleanup_only_if (env : Env) (args : Args) (cwd : String)
    (h : removesWorktree (run env args cwd).events = true) :
    (run env args cwd).worktree_created = true ∧ args.keep_worktree = false := by
  by_cases hd : env.dockerfileExists = true
  · rcases hco : checkout_phase env args cwd (!args.keep_worktree)
      with ⟨e, n⟩ | ⟨e, st⟩
    · rw [run_inl env args cwd e n hd hco] at h ⊢
      obtain ⟨he, -⟩ := checkout_inl_cases env args cwd _ e n hco
      subst he
      simp [removesWorktree, isWorktreeRemove] at h
    · rw [run_decomp env args cwd e st hd hco] at h ⊢
      obtain ⟨hev, hcl⟩ := checkout_inr_cases env args cwd _ e st hco
      have hre : removesWorktree e = false := by
        rcases hev with rfl | rfl | rfl <;> decide
      rw [removesWorktree_append, removesWorktree_append, hre,
        removesWorktree_try] at h
      simp only [Bool.false_or] at h
      have htd := td_remove env st.worktree_path st.cleanup_worktree
        st.worktree_created h
      refine ⟨htd.2, ?_⟩
      rcases hcl with hcl | hcl
      · rw [htd.1] at hcl
        revert hcl
        cases args.keep_worktree <;> simp
      · rw [htd.1] at hcl
        exact absurd hcl (by simp)
  · have hd' : env.dockerfileExists = false := by
      revert hd; cases env.dockerfileExists <;> simp
    unfold run at h
    rw [hd'] at h
    simp [removesWorktree, isWorktreeRemove] at h

/-- C8 (witness): a default run (created worktree, cleanup enabled, listed)
does remove the checkout, and the theorem confirms `created=true` with the
keep flag unset. -/
theorem C8_cleanup_only_if_witness :
    (run baseEnv baseArgs "/repo").worktree_created = true ∧
      baseArgs.keep_worktree = false :=
  C8_cleanup_only_if baseEnv baseArgs "/repo" (by decide)

/-- Post-processing under a failing first push: detection, stage, commit,
branch query, the plain push, the single upstream-setting retry, and — when
the retry also fails — the warning; the phase still completes without
raising. -/
theorem post_push_retry (env : Env) (wp : String)
    (hwd : env.worktreeDirExists = true) (hch : env.hasUnstagedChanges = true)
    (haok : env.addOk = true) (hcok : env.commitOk = true)
    (hbr : env.branchOk = true) (hp : env.pushOk = false) :
    handle_worktree_post_processing env true (some wp) =
      ([Event.cmd ["git", "diff", "--quiet"],
        Event.cmd ["git", "diff", "--cached", "--quiet"],
        Event.cmd ["git", "ls-files", "--others", "--exclude-standard"],
        Event.cmd ["git", "add", "-A"],
        Event.cmd ["git", "commit", "-m", commit_msg env.timestamp],
        Event.cmd ["git", "branch", "--show-current"],
        Event.cmd ["git", "push", "origin", env.currentBranch],
        Event.cmd ["git", "push", "--set-upstream", "origin", env.currentBranch]] ++
       (if env.pushUpstreamOk then []
        else [Event.warn "Warning: Failed to push changes to remote"]), true) := by
  unfold handle_worktree_post_processing
  cases hup : env.pushUpstreamOk <;>
    simp [hwd, hch, haok, hcok, hbr, hp, hup]

/-- C6: when the first push of a reconciliation fails, exactly one plain push
and exactly one upstream-setting retry are issued, exactly one commit was
made (and is never undone), a failing retry only surfaces a warning, and the
run still ends with the normal outcome (exit code 0). -/
theorem C6_push_retry (env : Env) (args : Args) (cwd : String)
    (hd : env.dockerfileExists = true)
    (hnw : args.no_worktree = false) (hwp : args.worktree_path = none)
    (hg : env.isGitRepo = true) (ha : env.worktreeAddOk = true)
    (h1 : env.credentialsExist = true) (h2 : env.userConfigExists = true)
    (h3 : env.configParseOk = true) (h4 : env.buildOk = true)
    (hwd : env.worktreeDirExists = true) (hch : env.hasUnstagedChanges = true)
    (haok : env.addOk = true) (hcok : env.commitOk = true)
    (hbr : env.branchOk = true) (hp : env.pushOk = false) :
    (run env args cwd).events.countP isPlainPush = 1 ∧
    (run env args cwd).events.countP isUpstreamPush = 1 ∧
    (run env args cwd).events.countP (isGitCmd "commit") = 1 ∧
    (env.pushUpstreamOk = false →
      warnsPushFailure (run env args cwd).events = true) ∧
    (run env args cwd).outcome.code = 0 := by
  rw [run_decomp env args cwd _ _ hd
      (checkout_create_ok env args cwd (!args.keep_worktree) hnw hwp hg ha),
    try_decomp env args _ h1 h2 h3 h4]
  have hb := observers_of_no_git _ (touchesGit_build env args.no_cache)
  have hs := observers_of_no_git _ (touchesGit_stop env)
  have hrc := observers_of_no_git _
    (touchesGit_runc env (cwd ++ "/claude_wt") args.message args.permission_mode)
  have htd := td_observers env (some (cwd ++ "/claude_wt")) (!args.keep_worktree) true
  have hpost := post_push_retry env (cwd ++ "/claude_wt") hwd hch haok hcok hbr hp
  refine ⟨?_, ?_, ?_, fun hup => ?_, ?_⟩
  · simp only [hpost, List.countP_append, hb.2.2.1, hs.2.2.1, hrc.2.2.1, htd.1]
    cases hupo : env.pushUpstreamOk <;>
      simp [List.countP_cons, isPlainPush, isGitCmd, commit_msg,
        worktree_add_cmd, cleanup_temp_files]
  · simp only [hpost, List.countP_append, hb.2.2.2.1, hs.2.2.2.1, hrc.2.2.2.1,
      htd.2.1]
    cases hupo : env.pushUpstreamOk <;>
      simp [List.countP_cons, isUpstreamPush, isGitCmd, commit_msg,
        worktree_add_cmd, cleanup_temp_files]
  · simp only [hpost, List.countP_append, hb.2.2.2.2 "commit", hs.2.2.2.2 "commit",
      hrc.2.2.2.2 "commit", htd.2.2.1]
    cases hupo : env.pushUpstreamOk <;>
      simp [List.countP_cons, isGitCmd, commit_msg,
        worktree_add_cmd, cleanup_temp_files]
  · simp only [hpost, hup, warnsPushFailure_append, Bool.if_false_right,
      Bool.or_eq_true]
    simp [warnsPushFailure]
  · simp only [hpost]
    rfl

/-- A world in which there are changes to reconcile and both push forms
fail. -/
def pushFailEnv : Env :=
  { baseEnv with hasUnstagedChanges := true, pushOk := false, pushUpstreamOk := false }

/-- C6 (witness): both pushes fail at a concrete world; the retry happened
exactly once, the warning is surfaced, and the exit code is 0. -/
theorem C6_push_retry_witness :
    (run pushFailEnv baseArgs "/repo").events.countP isPlainPush = 1 ∧
    (run pushFailEnv baseArgs "/repo").events.countP isUpstreamPush = 1 ∧
    warnsPushFailure (run pushFailEnv baseArgs "/repo").events = true ∧
    (run pushFailEnv baseArgs "/repo").outcome.code = 0 := by
  have T := C6_push_retry pushFailEnv baseArgs "/repo"
    rfl rfl rfl rfl rfl rfl rfl rfl rfl rfl rfl rfl rfl rfl rfl
  exact ⟨T.1, T.2.1, T.2.2.2.1 rfl, T.2.2.2.2⟩

/-- C9: probing for the named container when none exists runs only the probe
(no stop, no remove — and, structurally, nothing here can raise); when one
exists it is stopped and removed, and in every run these events precede the
`podman run` that starts the new container. -/
theorem C9_stop_existing (env : Env) (args : Args) (cwd : String)
    (e : List Event) (st : RunState)
    (hd : env.dockerfileExists = true)
    (hc : checkout_phase env args cwd (!args.keep_worktree) = .inr (e, st))
    (h1 : env.credentialsExist = true) (h2 : env.userConfigExists = true)
    (h3 : env.configParseOk = true) (h4 : env.buildOk = true) :
    (env.containerExists = false →
      stop_existing_container env =
        [Event.cmd ["podman", "container", "exists", container_name]]) ∧
    (env.containerExists = true →
      stop_existing_container env =
        [Event.cmd ["podman", "container", "exists", container_name],
         Event.warn "Stopping existing container...",
         Event.cmd ["podman", "stop", container_name],
         Event.cmd ["podman", "rm", container_name]]) ∧
    (∃ pre post,
      (run env args cwd).events =
        pre ++ stop_existing_container env ++
          run_container env st.mount_path args.message args.permission_mode ++ post) := by
  refine ⟨fun h => by simp [stop_existing_container, h],
    fun h => by simp [stop_existing_container, h], ?_⟩
  rw [run_decomp env args cwd e st hd hc, try_decomp env args st h1 h2 h3 h4]
  exact ⟨e ++ ([Event.writeFile ".credentials.json", Event.writeFile ".claude.json"] ++
      (build_phase env args.no_cache).1 ++ cleanup_temp_files),
    (handle_worktree_post_processing env st.worktree_created st.worktree_path).1 ++
      cleanup_worktree_if_needed env st.worktree_path st.cleanup_worktree
        st.worktree_created,
    by simp [List.append_assoc]⟩

/-- C9 (witness): with a stale container present at a concrete world, its
stop/remove events precede the container start. -/
theorem C9_stop_existing_witness :
    ∃ pre post,
      (run { baseEnv with containerExists := true } baseArgs "/repo").events =
        pre ++ stop_existing_container { baseEnv with containerExists := true } ++
          run_container { baseEnv with containerExists := true } "/repo/claude_wt"
            none none ++ post :=
  (C9_stop_existing _ baseArgs "/repo"
    [Event.cmd ["git", "rev-parse", "--git-dir"], Event.cmd worktree_add_cmd]
    ⟨"/repo/claude_wt", some "/repo/claude_wt", true, true⟩
    rfl (by decide) rfl rfl rfl rfl).2.2

/-- C10: when a one-shot message is supplied (non-empty — Python truthiness)
and no permission mode is selected, the container entry command invokes the
tool with `--dangerously-skip-permissions`; a supplied (non-empty) permission
mode replaces that flag with `--permission-mode <mode>`.  An empty message is
falsy: the container then starts the plain interactive shell with no entry
command, whatever the mode. -/
theorem C10_one_shot_command (env : Env) (mount msg m : String)
    (hmsg : msg ≠ "") :
    run_container env mount (some msg) none =
      [Event.cmd (base_run_args env mount ++
        ["bash", "-c", "claude --dangerously-skip-permissions -p \"" ++ msg ++
          "\" --output-format stream-json --verbose"])] ∧
    (m ≠ "" →
      run_container env mount (some msg) (some m) =
        [Event.cmd (base_run_args env mount ++
          ["bash", "-c", "claude --permission-mode " ++ m ++ " -p \"" ++ msg ++
            "\" --output-format stream-json --verbose"])]) ∧
    run_container env mount (some msg) (some "") =
      [Event.cmd (base_run_args env mount ++
        ["bash", "-c", "claude --dangerously-skip-permissions -p \"" ++ msg ++
          "\" --output-format stream-json --verbose"])] ∧
    run_container env mount (some "") (some m) =
      [Event.cmd (base_run_args env mount)] ∧
    run_container env mount none (some m) =
      [Event.cmd (base_run_args env mount)] := by
  have h1 : (msg != "") = true := by simpa using hmsg
  refine ⟨?_, fun hm => ?_, ?_, ?_, ?_⟩
  · unfold run_container run_container_args
    dsimp only
    rw [if_pos h1]
    rfl
  · have h2 : (m != "") = true := by simpa using hm
    unfold run_container run_container_args claude_cmd
    dsimp only
    rw [if_pos h1, if_pos h2]
    rfl
  · unfold run_container run_container_args
    dsimp only
    rw [if_pos h1]
    rfl
  · rfl
  · rfl

/-- C10 (witness): a concrete non-empty message without and with a concrete
non-empty permission mode. -/
theorem C10_one_shot_command_witness :
    run_container baseEnv "/repo/claude_wt" (some "list the files") none =
      [Event.cmd (base_run_args baseEnv "/repo/claude_wt" ++
        ["bash", "-c",
         "claude --dangerously-skip-permissions -p \"list the files\" --output-format stream-json --verbose"])] ∧
    run_container baseEnv "/repo/claude_wt" (some "list the files") (some "plan") =
      [Event.cmd (base_run_args baseEnv "/repo/claude_wt" ++
        ["bash", "-c",
         "claude --permission-mode plan -p \"list the files\" --output-format stream-json --verbose"])] := by
  have T := C10_one_shot_command baseEnv "/repo/claude_wt" "list the files" "plan"
    (by decide)
  exact ⟨T.1, T.2.1 (by decide)⟩

end Launcher
